import Mathlib

set_option autoImplicit false

/-!
Verification development for the mybidfit-mini presentation image scripts.

The repository holds four standalone Python scripts that each call the
Stability AI text-to-image HTTP endpoint and save the resulting image in two
formats.  We embed each script as a pure Lean function over an explicit
`World` oracle describing the external environment (the environment variable,
the reply to each HTTP POST, the outcome of base64 decoding, image opening,
directory creation and file saving).  Each runner returns an `Outcome`
(either the Python function returned a boolean, or an exception escaped
uncaught) together with the ordered list of observable effects (prints, HTTP
posts, directory creations, file writes).

Numeric literals that are integral floats in the source (`1.0`, `7.0`,
`8.0`) are modelled as naturals, since the scripts never compute with them.
-/

/-- A PIL image as obtained from `Image.open`: dimensions plus abstract
pixel data. -/
structure PilImage where
  width : Nat
  height : Nat
  data : String
deriving Repr, DecidableEq

/-- Python exceptions relevant to the scripts.  `requestException` covers
`requests.exceptions.RequestException` (including the `HTTPError` raised by
`raise_for_status`); the others are ordinary `Exception` subclasses caught
only by the generic `except Exception` handler. -/
inductive PyExc where
  | requestException
  | indexError
  | valueError
  | osError
deriving Repr, DecidableEq

/-- One element of the response "artifacts" array: holds a base64 payload,
as accessed via the "base64" key. -/
structure Artifact where
  base64 : String
deriving Repr, DecidableEq

/-- The JSON body of an API response, reduced to what the scripts inspect:
whether the "artifacts" key is present (`some`) and, if so, its list value. -/
structure ApiBody where
  artifacts? : Option (List Artifact)
deriving Repr, DecidableEq

instance {ε α : Type} [DecidableEq ε] [DecidableEq α] :
    DecidableEq (Except ε α) := fun x y =>
  match x, y with
  | Except.error a, Except.error b =>
    if h : a = b then isTrue (by rw [h]) else isFalse (by simp [h])
  | Except.error _, Except.ok _ => isFalse (by simp)
  | Except.ok _, Except.error _ => isFalse (by simp)
  | Except.ok a, Except.ok b =>
    if h : a = b then isTrue (by rw [h]) else isFalse (by simp [h])

/-- Outcome of one `requests.post` call: either the call raises a
`RequestException` (network failure or timeout), or it yields a response
with a status code and a JSON body; `.json()` itself may raise. -/
inductive PostReply where
  | raise
  | ok (status : Nat) (json : Except PyExc ApiBody)
deriving Repr, DecidableEq

/-- One entry of the "text_prompts" list of the request payload. -/
structure TextPrompt where
  text : String
  weight : Nat
deriving Repr, DecidableEq

/-- The JSON request payload each script builds (the `data` dict). -/
structure RequestData where
  text_prompts : List TextPrompt
  cfg_scale : Nat
  height : Nat
  width : Nat
  samples : Nat
  steps : Nat
  style_preset : String
deriving Repr, DecidableEq

/-- The content written to a file by an `image.save` call with a format and
a quality argument. -/
structure FileContent where
  format : String
  quality : Nat
  image : PilImage
deriving Repr, DecidableEq

/-- Observable effects of one runner invocation, in program order. -/
inductive Effect where
  | print (msg : String)
  | httpPost (url : String) (payload : RequestData) (timeout : Nat)
  | makedirs (dir : String)
  | fileWrite (path : String) (content : FileContent)
deriving Repr, DecidableEq

/-- How a runner invocation ends: the Python function returns a boolean, or
an exception propagates out of it uncaught. -/
inductive Outcome where
  | ret (b : Bool)
  | uncaught (e : PyExc)
deriving Repr, DecidableEq

/-- The external world one invocation interacts with: the environment
variable, the reply to the n-th POST issued during the invocation, and the
outcomes of `base64.b64decode`, `Image.open`, `os.makedirs` and
`image.save`. -/
structure World where
  apiKey : Option String
  post : Nat → PostReply
  b64decode : String → Except PyExc String
  imageOpen : String → Except PyExc PilImage
  makedirs : String → Except PyExc Unit
  save : String → String → Nat → PilImage → Except PyExc Unit

/-- The fixed Stability AI endpoint used by all four scripts. -/
def stabilityUrl : String :=
  "https://api.stability.ai/v1/generation/stable-diffusion-xl-1024-v1-0/text-to-image"

/-- The error message printed when the credential is absent. -/
def keyMissingMsg : String :=
  "ERROR: STABILITY_API_KEY environment variable not set"

/-- The fixed assets directory used by the three single-image scripts. -/
def assetsDir : String :=
  "/mnt/c/Users/dnice/DJ Programs/mybidfit_mini/business/mybidfit-presentation/assets"

/-- `requests.Response.raise_for_status` raises `HTTPError` exactly for
status codes in [400, 600). -/
def nonSuccess (s : Nat) : Prop := 400 ≤ s ∧ s < 600

instance (s : Nat) : Decidable (nonSuccess s) := by
  unfold nonSuccess; infer_instance

/-- Literal configuration of one of the three single-image scripts
(`generate_dashboard_mockup`, `generate_hero_image`,
`generate_investment_visual`), whose bodies are identical up to these
literals. -/
structure SingleConfig where
  prompt : String
  cfg_scale : Nat
  height : Nat
  width : Nat
  style_preset : String
  outDir : String
  pngPath : String
  webpPath : String
  requestFailMsg : String
  genericErrMsg : String
  noDataMsg : String
  successMsg : String
deriving Repr, DecidableEq

/-- The request payload a single-image script builds: one weighted prompt,
`samples = 1`, `steps = 50`, and the configured dimensions and preset. -/
def mkRequestData (c : SingleConfig) : RequestData :=
  { text_prompts := [{ text := c.prompt, weight := 1 }]
  , cfg_scale := c.cfg_scale
  , height := c.height
  , width := c.width
  , samples := 1
  , steps := 50
  , style_preset := c.style_preset }

/-- The effects produced by an `except` clause of a single-image script:
`except requests.exceptions.RequestException` prints the request-failure
message, the generic `except Exception` prints the script-specific error
message.  Both paths return `False`. -/
def singleHandler (c : SingleConfig) (e : PyExc) : List Effect :=
  match e with
  | PyExc.requestException => [Effect.print c.requestFailMsg]
  | _ => [Effect.print c.genericErrMsg]

/-- Shared body of the three single-image scripts: check the credential,
POST once with timeout 120, `raise_for_status`, parse JSON, require the
"artifacts" key, decode the first artifact, open the image, create the
output directory, save PNG (quality 95) then WebP (quality 85), and print a
summary.  Every failure inside the `try` is caught and returns `False`. -/
def runSingle (c : SingleConfig) (w : World) : Outcome × List Effect :=
  match w.apiKey with
  | none => (Outcome.ret false, [Effect.print keyMissingMsg])
  | some _ =>
    let postE := Effect.httpPost stabilityUrl (mkRequestData c) 120
    match w.post 0 with
    | PostReply.raise =>
      (Outcome.ret false, [postE, Effect.print c.requestFailMsg])
    | PostReply.ok status json =>
      if nonSuccess status then
        (Outcome.ret false, [postE, Effect.print c.requestFailMsg])
      else
        match json with
        | Except.error e => (Outcome.ret false, postE :: singleHandler c e)
        | Except.ok body =>
          match body.artifacts? with
          | none => (Outcome.ret false, [postE, Effect.print c.noDataMsg])
          | some [] =>
            (Outcome.ret false, postE :: singleHandler c PyExc.indexError)
          | some (a :: _) =>
            match w.b64decode a.base64 with
            | Except.error e => (Outcome.ret false, postE :: singleHandler c e)
            | Except.ok bs =>
              match w.imageOpen bs with
              | Except.error e =>
                (Outcome.ret false, postE :: singleHandler c e)
              | Except.ok img =>
                match w.makedirs c.outDir with
                | Except.error e =>
                  (Outcome.ret false, postE :: singleHandler c e)
                | Except.ok _ =>
                  let mkE := Effect.makedirs c.outDir
                  match w.save c.pngPath "PNG" 95 img with
                  | Except.error e =>
                    (Outcome.ret false, postE :: mkE :: singleHandler c e)
                  | Except.ok _ =>
                    let pngE := Effect.fileWrite c.pngPath
                      { format := "PNG", quality := 95, image := img }
                    match w.save c.webpPath "WebP" 85 img with
                    | Except.error e =>
                      (Outcome.ret false,
                        postE :: mkE :: pngE :: singleHandler c e)
                    | Except.ok _ =>
                      let webpE := Effect.fileWrite c.webpPath
                        { format := "WebP", quality := 85, image := img }
                      (Outcome.ret true,
                        [postE, mkE, pngE, webpE,
                         Effect.print c.successMsg,
                         Effect.print ("   📄 Original: " ++ c.pngPath),
                         Effect.print ("   🌐 Web-optimized: " ++ c.webpPath),
                         Effect.print ("   📐 Dimensions: "
                           ++ toString img.width ++ "x"
                           ++ toString img.height)])

/-- Prompt of `generate_dashboard_mockup` (whitespace normalised). -/
def dashboardPrompt : String :=
  "Modern SaaS dashboard interface for MyBidFit B2B platform, \x27Personalized Opportunities\x27 header at top, three opportunity cards showing: - First card: \x27TechCorp Solutions\x27 with 96% match score, green indicator - Second card: \x27Global Industries\x27 with 89% match score, blue indicator - Third card: \x27Metro Services\x27 with 78% match score, yellow indicator, each card has \x27View Details & Apply\x27 button, clean white background, deep blue (#1e3a8a) headers, bright blue (#3b82f6) accent buttons, professional UI design, modern typography, card-based layout, subtle shadows, desktop web application interface, high-quality mockup design"

/-- Prompt of `generate_hero_image` (whitespace normalised). -/
def heroPrompt : String :=
  "Professional business success concept for B2B presentation background, arrow hitting bullseye target center, corporate office environment, professional businesspeople in background slightly blurred, deep blue and bright blue color scheme (#1e3a8a, #3b82f6), success and achievement theme, clean modern composition, photorealistic, high quality corporate photography, suitable for investor presentation, inspiring and trustworthy aesthetic"

/-- Prompt of `generate_investment_visual` (whitespace normalised). -/
def investmentPrompt : String :=
  "Professional business investment visualization showing $500K funding concept, upward trending growth chart with ascending bars and arrow, network connections between business nodes, interconnected circles, money symbols and investment icons, dollar signs and growth indicators, deep blue (#1e3a8a) and bright blue (#3b82f6) primary colors, accent green (#10b981) for positive growth elements, clean modern infographic style, corporate presentation graphics, success and profitability theme, investor-focused design, professional financial visualization, high-quality business graphics"

/-- Literals of `generate_dashboard_mockup`. -/
def dashboardConfig : SingleConfig :=
  { prompt := dashboardPrompt
  , cfg_scale := 8
  , height := 896
  , width := 1152
  , style_preset := "digital-art"
  , outDir := assetsDir
  , pngPath := assetsDir ++ "/dashboard_mockup.png"
  , webpPath := assetsDir ++ "/dashboard_mockup.webp"
  , requestFailMsg := "❌ API Request failed"
  , genericErrMsg := "❌ Error generating dashboard mockup"
  , noDataMsg := "❌ Error: No image data in response"
  , successMsg := "✅ Dashboard mockup generated successfully!" }

/-- Literals of `generate_hero_image`. -/
def heroConfig : SingleConfig :=
  { prompt := heroPrompt
  , cfg_scale := 7
  , height := 768
  , width := 1344
  , style_preset := "photographic"
  , outDir := assetsDir
  , pngPath := assetsDir ++ "/hero_background.png"
  , webpPath := assetsDir ++ "/hero_background.webp"
  , requestFailMsg := "❌ API Request failed"
  , genericErrMsg := "❌ Error generating image"
  , noDataMsg := "❌ Error: No image data in response"
  , successMsg := "✅ Hero image generated successfully!" }

/-- Literals of `generate_investment_visual`. -/
def investmentConfig : SingleConfig :=
  { prompt := investmentPrompt
  , cfg_scale := 7
  , height := 768
  , width := 1344
  , style_preset := "digital-art"
  , outDir := assetsDir
  , pngPath := assetsDir ++ "/investment_visual.png"
  , webpPath := assetsDir ++ "/investment_visual.webp"
  , requestFailMsg := "❌ API Request failed"
  , genericErrMsg := "❌ Error generating investment visual"
  , noDataMsg := "❌ Error: No image data in response"
  , successMsg := "✅ Investment visual generated successfully!" }

/-- Embedding of `generate_dashboard_mockup`. -/
def generate_dashboard_mockup (w : World) : Outcome × List Effect :=
  runSingle dashboardConfig w

/-- Embedding of `generate_hero_image`. -/
def generate_hero_image (w : World) : Outcome × List Effect :=
  runSingle heroConfig w

/-- Embedding of `generate_investment_visual`. -/
def generate_investment_visual (w : World) : Outcome × List Effect :=
  runSingle investmentConfig w

/-- One icon entry of the `icons` list of `generate_business_icons`. -/
structure Icon where
  name : String
  prompt : String
deriving Repr, DecidableEq

/-- The six icon concepts of `generate_business_icons` (prompt whitespace
normalised). -/
def icons : List Icon :=
  [ { name := "prospecting"
    , prompt := "Professional business icon for \x27Prospecting\x27, magnifying glass with business opportunities, search and discovery concept, clean modern icon design, deep blue (#1e3a8a) and bright blue (#3b82f6), white background, circular design suitable for diagram, vector-style illustration, minimalist and professional" }
  , { name := "qualification"
    , prompt := "Professional business icon for \x27Qualification\x27, filter or checkmark with criteria evaluation, sorting and selection concept, clean modern icon design, deep blue (#1e3a8a) and bright blue (#3b82f6), white background, circular design suitable for diagram, vector-style illustration, minimalist and professional" }
  , { name := "needs_assessment"
    , prompt := "Professional business icon for \x27Needs Assessment\x27, question mark with analysis symbols, understanding and evaluation concept, clean modern icon design, deep blue (#1e3a8a) and bright blue (#3b82f6), white background, circular design suitable for diagram, vector-style illustration, minimalist and professional" }
  , { name := "proposal_contracting"
    , prompt := "Professional business icon for \x27Proposal & Contracting\x27, document with pen or contract signing, paperwork and legal concept, clean modern icon design, deep blue (#1e3a8a) and bright blue (#3b82f6), white background, circular design suitable for diagram, vector-style illustration, minimalist and professional" }
  , { name := "solutioning"
    , prompt := "Professional business icon for \x27Solutioning\x27, lightbulb with gear or puzzle pieces, problem solving and innovation concept, clean modern icon design, deep blue (#1e3a8a) and bright blue (#3b82f6), white background, circular design suitable for diagram, vector-style illustration, minimalist and professional" }
  , { name := "close_followup"
    , prompt := "Professional business icon for \x27Close & Follow-up\x27, handshake with circular arrow or relationship symbol, partnership and ongoing relationship concept, clean modern icon design, deep blue (#1e3a8a) and bright blue (#3b82f6), white background, circular design suitable for diagram, vector-style illustration, minimalist and professional" }
  ]

/-- The fixed icons output directory of `generate_business_icons`. -/
def iconsDir : String := assetsDir ++ "/icons"

/-- PNG output path of one icon. -/
def iconPngPath (n : String) : String := iconsDir ++ "/" ++ n ++ "_icon.png"

/-- WebP output path of one icon. -/
def iconWebpPath (n : String) : String := iconsDir ++ "/" ++ n ++ "_icon.webp"

/-- The request payload built for one icon: one weighted prompt,
`cfg_scale = 7.0`, 1024 by 1024, `samples = 1`, `steps = 50`,
"digital-art". -/
def iconRequestData (icon : Icon) : RequestData :=
  { text_prompts := [{ text := icon.prompt, weight := 1 }]
  , cfg_scale := 7
  , height := 1024
  , width := 1024
  , samples := 1
  , steps := 50
  , style_preset := "digital-art" }

/-- The per-icon `except` clauses of `generate_business_icons`. -/
def iconHandler (icon : Icon) (e : PyExc) : List Effect :=
  match e with
  | PyExc.requestException =>
    [Effect.print ("   ❌ API Request failed for " ++ icon.name)]
  | _ => [Effect.print ("   ❌ Error generating " ++ icon.name)]

/-- One iteration of the icon loop: the `i`-th POST of the invocation is
issued for this icon; inside the per-icon `try`, a response with the
"artifacts" key leads to decoding the first artifact and saving PNG then
WebP; any exception is caught by the per-icon handlers.  Returns the
effects of the iteration and whether `success_count` was incremented. -/
def iconStep (w : World) (i : Nat) (icon : Icon) : List Effect × Bool :=
  let pre := Effect.print ("🎨 Generating " ++ icon.name ++ " icon...")
  let postE := Effect.httpPost stabilityUrl (iconRequestData icon) 120
  match w.post i with
  | PostReply.raise => ([pre, postE] ++ iconHandler icon PyExc.requestException, false)
  | PostReply.ok status json =>
    if nonSuccess status then
      ([pre, postE] ++ iconHandler icon PyExc.requestException, false)
    else
      match json with
      | Except.error e => ([pre, postE] ++ iconHandler icon e, false)
      | Except.ok body =>
        match body.artifacts? with
        | none =>
          ([pre, postE,
            Effect.print ("   ❌ Error generating " ++ icon.name
              ++ ": No image data in response")], false)
        | some [] => ([pre, postE] ++ iconHandler icon PyExc.indexError, false)
        | some (a :: _) =>
          match w.b64decode a.base64 with
          | Except.error e => ([pre, postE] ++ iconHandler icon e, false)
          | Except.ok bs =>
            match w.imageOpen bs with
            | Except.error e => ([pre, postE] ++ iconHandler icon e, false)
            | Except.ok img =>
              match w.save (iconPngPath icon.name) "PNG" 95 img with
              | Except.error e => ([pre, postE] ++ iconHandler icon e, false)
              | Except.ok _ =>
                let pngE := Effect.fileWrite (iconPngPath icon.name)
                  { format := "PNG", quality := 95, image := img }
                match w.save (iconWebpPath icon.name) "WebP" 85 img with
                | Except.error e =>
                  ([pre, postE, pngE] ++ iconHandler icon e, false)
                | Except.ok _ =>
                  let webpE := Effect.fileWrite (iconWebpPath icon.name)
                    { format := "WebP", quality := 85, image := img }
                  ([pre, postE, pngE, webpE,
                    Effect.print ("   ✅ " ++ icon.name
                      ++ " icon generated successfully!")], true)

/-- The icon loop: iterate `iconStep` over the remaining icons, with `i`
the index of the next POST, accumulating effects and the success count. -/
def iconsLoopAux (w : World) : Nat → List Icon → List Effect × Nat
  | _, [] => ([], 0)
  | i, icon :: rest =>
    let s := iconStep w i icon
    let r := iconsLoopAux w (i + 1) rest
    (s.1 ++ r.1, (if s.2 then 1 else 0) + r.2)

/-- Embedding of `generate_business_icons`: check the credential, create
the icons directory (outside any `try`, so a failure there escapes
uncaught), run the six-icon loop, print the summary, and return whether
all six icons succeeded. -/
def generate_business_icons (w : World) : Outcome × List Effect :=
  match w.apiKey with
  | none => (Outcome.ret false, [Effect.print keyMissingMsg])
  | some _ =>
    match w.makedirs iconsDir with
    | Except.error e => (Outcome.uncaught e, [])
    | Except.ok _ =>
      let r := iconsLoopAux w 0 icons
      (Outcome.ret (r.2 == 6),
        Effect.makedirs iconsDir :: r.1
          ++ [Effect.print "📊 Icon Generation Summary:",
              Effect.print ("   ✅ Successfully generated: "
                ++ toString r.2 ++ "/6 icons"),
              Effect.print "   📁 Location: assets/icons/",
              Effect.print "   📐 Dimensions: 1024x1024 (high resolution)",
              Effect.print "   🌐 Both PNG and WebP versions created"])

/-- The file writes of an effect trace, in order. -/
def writesOf : List Effect → List (String × FileContent)
  | [] => []
  | Effect.fileWrite p c :: es => (p, c) :: writesOf es
  | _ :: es => writesOf es

/-- The HTTP POSTs of an effect trace, in order. -/
def postsOf : List Effect → List (String × RequestData × Nat)
  | [] => []
  | Effect.httpPost u d t :: es => (u, d, t) :: postsOf es
  | _ :: es => postsOf es

/-- Whether an effect touches the filesystem. -/
def isFsEffect : Effect → Bool
  | Effect.makedirs _ => true
  | Effect.fileWrite _ _ => true
  | _ => false

/-- The filesystem effects of a trace, in order. -/
def fsEffectsOf (es : List Effect) : List Effect := es.filter isFsEffect

/-- A local filesystem: a map from paths to file contents. -/
def FS : Type := String → Option FileContent

/-- Apply a list of writes to a filesystem, earlier writes first, so a
later write to the same path overwrites an earlier one. -/
def applyWrites (fs : FS) : List (String × FileContent) → FS
  | [] => fs
  | (p, c) :: ws =>
    applyWrites (fun q => if q = p then some c else fs q) ws

/-- The filesystem after running a runner on a filesystem: its file writes
applied in order.  The writes depend only on the world, never on the prior
filesystem state. -/
def runFS (runner : World → Outcome × List Effect) (w : World) (fs : FS) : FS :=
  applyWrites fs (writesOf (runner w).2)

/-- Forget every artifact of a reply beyond the first. -/
def truncReply : PostReply → PostReply
  | PostReply.ok s (Except.ok { artifacts? := some (a :: _) }) =>
    PostReply.ok s (Except.ok { artifacts? := some [a] })
  | r => r

/-- The world in which every reply is truncated to its first artifact. -/
def truncWorld (w : World) : World := { w with post := fun n => truncReply (w.post n) }

/-- A syntactically valid artifact for concrete test worlds. -/
def okArtifact : Artifact := { base64 := "aVZCT1J3MEtHZ28" }

/-- A response body holding one artifact. -/
def okBody : ApiBody := { artifacts? := some [okArtifact] }

/-- A successful reply: status 200, body with one artifact. -/
def okReply : PostReply := PostReply.ok 200 (Except.ok okBody)

/-- A reply with a server-error status. -/
def failReply : PostReply := PostReply.ok 500 (Except.ok okBody)

/-- A 200 reply whose JSON body lacks the "artifacts" key. -/
def noArtReply : PostReply := PostReply.ok 200 (Except.ok { artifacts? := none })

/-- A concrete image for test worlds. -/
def testImage : PilImage := { width := 1024, height := 1024, data := "pixels" }

/-- A world in which everything succeeds. -/
def goodWorld : World :=
  { apiKey := some "sk-test"
  , post := fun _ => okReply
  , b64decode := fun s => Except.ok s
  , imageOpen := fun _ => Except.ok testImage
  , makedirs := fun _ => Except.ok ()
  , save := fun _ _ _ _ => Except.ok () }

/-- A world with the credential absent. -/
def noKeyWorld : World := { goodWorld with apiKey := none }

/-- A world in which the first POST gets a 500 status and every later POST
succeeds. -/
def mixedStatusWorld : World :=
  { goodWorld with post := fun n => if n = 0 then failReply else okReply }

/-- A world in which the first POST gets a body without "artifacts" and
every later POST succeeds. -/
def mixedNoArtWorld : World :=
  { goodWorld with post := fun n => if n = 0 then noArtReply else okReply }

/-- A world in which directory creation raises `OSError`. -/
def mkdirFailWorld : World :=
  { goodWorld with makedirs := fun _ => Except.error PyExc.osError }

/-- A world in which every POST gets a 500 status. -/
def allFailWorld : World := { goodWorld with post := fun _ => failReply }

/-- A world in which every POST gets a 200 reply whose body lacks the
"artifacts" key. -/
def allNoArtWorld : World := { goodWorld with post := fun _ => noArtReply }

/-- A world in which every POST gets a 200 reply with an empty "artifacts"
list. -/
def emptyArtWorld : World :=
  { goodWorld with post := fun _ => PostReply.ok 200 (Except.ok { artifacts? := some [] }) }

/-- A reply on which the request step of an icon iteration cannot produce
an image: the POST raises, the status is non-success, the JSON body fails
to parse, or the "artifacts" key is absent or holds an empty list. -/
def replyFails : PostReply → Bool
  | PostReply.raise => true
  | PostReply.ok s j =>
    if nonSuccess s then true
    else
      match j with
      | Except.error _ => true
      | Except.ok body =>
        match body.artifacts? with
        | none => true
        | some [] => true
        | some (_ :: _) => false

/-- Whether a write list contains an entry for a path. -/
def hasKey (ws : List (String × FileContent)) (q : String) : Prop :=
  ∃ e ∈ ws, e.1 = q

/-- The empty filesystem. -/
def emptyFS : FS := fun _ => none

@[simp]
theorem writesOf_nil : writesOf [] = [] := rfl

@[simp]
theorem writesOf_print (m : String) (es : List Effect) :
    writesOf (Effect.print m :: es) = writesOf es := rfl

@[simp]
theorem writesOf_httpPost (u : String) (d : RequestData) (t : Nat)
    (es : List Effect) :
    writesOf (Effect.httpPost u d t :: es) = writesOf es := rfl

@[simp]
theorem writesOf_makedirs (d : String) (es : List Effect) :
    writesOf (Effect.makedirs d :: es) = writesOf es := rfl

@[simp]
theorem writesOf_fileWrite (p : String) (c : FileContent) (es : List Effect) :
    writesOf (Effect.fileWrite p c :: es) = (p, c) :: writesOf es := rfl

@[simp]
theorem writesOf_append (xs ys : List Effect) :
    writesOf (xs ++ ys) = writesOf xs ++ writesOf ys := by
  induction xs with
  | nil => rfl
  | cons x xs ih => cases x <;> simp [writesOf, ih]

@[simp]
theorem postsOf_nil : postsOf [] = [] := rfl

@[simp]
theorem postsOf_print (m : String) (es : List Effect) :
    postsOf (Effect.print m :: es) = postsOf es := rfl

@[simp]
theorem postsOf_httpPost (u : String) (d : RequestData) (t : Nat)
    (es : List Effect) :
    postsOf (Effect.httpPost u d t :: es) = (u, d, t) :: postsOf es := rfl

@[simp]
theorem postsOf_makedirs (d : String) (es : List Effect) :
    postsOf (Effect.makedirs d :: es) = postsOf es := rfl

@[simp]
theorem postsOf_fileWrite (p : String) (c : FileContent) (es : List Effect) :
    postsOf (Effect.fileWrite p c :: es) = postsOf es := rfl

@[simp]
theorem postsOf_append (xs ys : List Effect) :
    postsOf (xs ++ ys) = postsOf xs ++ postsOf ys := by
  induction xs with
  | nil => rfl
  | cons x xs ih => cases x <;> simp [postsOf, ih]

@[simp]
theorem writesOf_singleHandler (c : SingleConfig) (e : PyExc) :
    writesOf (singleHandler c e) = [] := by
  cases e <;> rfl

@[simp]
theorem postsOf_singleHandler (c : SingleConfig) (e : PyExc) :
    postsOf (singleHandler c e) = [] := by
  cases e <;> rfl

theorem singleHandler_print (c : SingleConfig) (e : PyExc) :
    ∃ m, singleHandler c e = [Effect.print m] := by
  cases e <;> exact ⟨_, rfl⟩

theorem runSingle_isRet (c : SingleConfig) (w : World) :
    ∃ b, (runSingle c w).1 = Outcome.ret b := by
  unfold runSingle
  repeat' split
  all_goals exact ⟨_, rfl⟩

theorem runSingle_apiKey_none (c : SingleConfig) (w : World)
    (h : w.apiKey = none) :
    runSingle c w = (Outcome.ret false, [Effect.print keyMissingMsg]) := by
  simp [runSingle, h]

theorem runSingle_raise (c : SingleConfig) (w : World) (k : String)
    (hk : w.apiKey = some k) (hp : w.post 0 = PostReply.raise) :
    runSingle c w =
      (Outcome.ret false,
       [Effect.httpPost stabilityUrl (mkRequestData c) 120,
        Effect.print c.requestFailMsg]) := by
  simp [runSingle, hk, hp]

theorem runSingle_nonSuccess (c : SingleConfig) (w : World) (k : String)
    (s : Nat) (j : Except PyExc ApiBody)
    (hk : w.apiKey = some k) (hp : w.post 0 = PostReply.ok s j)
    (hs : nonSuccess s) :
    runSingle c w =
      (Outcome.ret false,
       [Effect.httpPost stabilityUrl (mkRequestData c) 120,
        Effect.print c.requestFailMsg]) := by
  simp [runSingle, hk, hp, hs]

theorem runSingle_noArtifacts (c : SingleConfig) (w : World) (k : String)
    (s : Nat) (hk : w.apiKey = some k)
    (hp : w.post 0 = PostReply.ok s (Except.ok { artifacts? := none }))
    (hs : ¬ nonSuccess s) :
    runSingle c w =
      (Outcome.ret false,
       [Effect.httpPost stabilityUrl (mkRequestData c) 120,
        Effect.print c.noDataMsg]) := by
  simp [runSingle, hk, hp, hs]

theorem runSingle_emptyArtifacts (c : SingleConfig) (w : World) (k : String)
    (s : Nat) (hk : w.apiKey = some k)
    (hp : w.post 0 = PostReply.ok s (Except.ok { artifacts? := some [] }))
    (hs : ¬ nonSuccess s) :
    runSingle c w =
      (Outcome.ret false,
       [Effect.httpPost stabilityUrl (mkRequestData c) 120,
        Effect.print c.genericErrMsg]) := by
  simp [runSingle, hk, hp, hs, singleHandler]

theorem runSingle_writes_cases (c : SingleConfig) (w : World) :
    writesOf (runSingle c w).2 = [] ∨
    (∃ img, writesOf (runSingle c w).2 =
      [(c.pngPath, { format := "PNG", quality := 95, image := img })]) ∨
    (∃ img, writesOf (runSingle c w).2 =
      [(c.pngPath, { format := "PNG", quality := 95, image := img }),
       (c.webpPath, { format := "WebP", quality := 85, image := img })]) := by
  unfold runSingle
  repeat' split
  all_goals simp

theorem runSingle_ret_true (c : SingleConfig) (w : World)
    (h : (runSingle c w).1 = Outcome.ret true) :
    ∃ img, writesOf (runSingle c w).2 =
      [(c.pngPath, { format := "PNG", quality := 95, image := img }),
       (c.webpPath, { format := "WebP", quality := 85, image := img })] := by
  revert h
  unfold runSingle
  repeat' split
  all_goals intro h
  all_goals simp_all

theorem runSingle_two_writes_ret_true (c : SingleConfig) (w : World)
    (x y : String × FileContent)
    (h : writesOf (runSingle c w).2 = [x, y]) :
    (runSingle c w).1 = Outcome.ret true := by
  revert h
  unfold runSingle
  repeat' split
  all_goals intro h
  all_goals simp_all

theorem runSingle_posts (c : SingleConfig) (w : World) (k : String)
    (hk : w.apiKey = some k) :
    postsOf (runSingle c w).2 = [(stabilityUrl, mkRequestData c, 120)] := by
  unfold runSingle
  rw [hk]
  repeat' split
  all_goals simp_all

theorem runSingle_success (c : SingleConfig) (w : World) (k : String)
    (s : Nat) (a : Artifact) (rest : List Artifact) (bs : String)
    (img : PilImage)
    (hk : w.apiKey = some k)
    (hp : w.post 0 = PostReply.ok s (Except.ok { artifacts? := some (a :: rest) }))
    (hs : ¬ nonSuccess s)
    (hd : w.b64decode a.base64 = Except.ok bs)
    (ho : w.imageOpen bs = Except.ok img)
    (hm : w.makedirs c.outDir = Except.ok ())
    (h1 : w.save c.pngPath "PNG" 95 img = Except.ok ())
    (h2 : w.save c.webpPath "WebP" 85 img = Except.ok ()) :
    (runSingle c w).1 = Outcome.ret true ∧
    writesOf (runSingle c w).2 =
      [(c.pngPath, { format := "PNG", quality := 95, image := img }),
       (c.webpPath, { format := "WebP", quality := 85, image := img })] := by
  simp [runSingle, hk, hp, hs, hd, ho, hm, h1, h2]

theorem runSingle_false_lastPrint (c : SingleConfig) (w : World)
    (h : (runSingle c w).1 = Outcome.ret false) :
    ∃ m, (runSingle c w).2.getLast? = some (Effect.print m) := by
  revert h
  unfold runSingle
  repeat' split
  all_goals intro h
  all_goals
    first
    | exact ⟨_, rfl⟩
    | simp_all
  all_goals
    rename_i e _
    rcases singleHandler_print c e with ⟨m, hm⟩
    rw [hm]
    exact ⟨m, rfl⟩

theorem runSingle_trunc (c : SingleConfig) (w : World) :
    runSingle c (truncWorld w) = runSingle c w := by
  unfold runSingle truncWorld
  rcases hk : w.apiKey with _ | k <;> simp only [hk]
  rcases hp : w.post 0 with _ | ⟨s, j⟩ <;> simp only [hp]
  · rfl
  rcases j with e | body
  · rfl
  rcases body with ⟨_ | arts⟩
  · rfl
  rcases arts with _ | ⟨a, rest⟩
  · rfl
  · rfl

theorem runSingle_samples (c : SingleConfig) (w : World)
    (u : String) (p : RequestData) (t : Nat)
    (h : (u, p, t) ∈ postsOf (runSingle c w).2) :
    p.samples = 1 ∧ u = stabilityUrl ∧ t = 120 := by
  rcases hk : w.apiKey with _ | k
  · rw [runSingle_apiKey_none c w hk] at h
    simp [postsOf] at h
  · rw [runSingle_posts c w k hk] at h
    simp at h
    obtain ⟨hu, hp, ht⟩ := h
    subst hu; subst hp; subst ht
    exact ⟨rfl, rfl, rfl⟩

@[simp]
theorem writesOf_iconHandler (icon : Icon) (e : PyExc) :
    writesOf (iconHandler icon e) = [] := by
  cases e <;> rfl

@[simp]
theorem postsOf_iconHandler (icon : Icon) (e : PyExc) :
    postsOf (iconHandler icon e) = [] := by
  cases e <;> rfl

theorem iconHandler_print (icon : Icon) (e : PyExc) :
    ∃ m, iconHandler icon e = [Effect.print m] := by
  cases e <;> exact ⟨_, rfl⟩

theorem iconStep_posts (w : World) (i : Nat) (icon : Icon) :
    postsOf (iconStep w i icon).1 = [(stabilityUrl, iconRequestData icon, 120)] := by
  unfold iconStep
  repeat' split
  all_goals simp

theorem iconStep_writes_cases (w : World) (i : Nat) (icon : Icon) :
    writesOf (iconStep w i icon).1 = [] ∨
    (∃ img, writesOf (iconStep w i icon).1 =
      [(iconPngPath icon.name, { format := "PNG", quality := 95, image := img })]) ∨
    (∃ img, writesOf (iconStep w i icon).1 =
      [(iconPngPath icon.name, { format := "PNG", quality := 95, image := img }),
       (iconWebpPath icon.name, { format := "WebP", quality := 85, image := img })]) := by
  unfold iconStep
  repeat' split
  all_goals simp

theorem iconStep_replyFails (w : World) (i : Nat) (icon : Icon)
    (h : replyFails (w.post i) = true) :
    (iconStep w i icon).2 = false ∧ writesOf (iconStep w i icon).1 = [] := by
  unfold iconStep
  rcases hp : w.post i with _ | ⟨s, j⟩
  · simp
  · rw [hp] at h
    simp only [replyFails] at h
    by_cases hs : nonSuccess s
    · simp [hs]
    · rw [if_neg hs] at h
      rcases j with e | ⟨_ | ⟨_ | ⟨a, arts⟩⟩⟩
      · simp [hs]
      · simp [hs]
      · simp [hs]
      · simp at h

theorem iconStep_true_writes (w : World) (i : Nat) (icon : Icon)
    (h : (iconStep w i icon).2 = true) :
    ∃ img, writesOf (iconStep w i icon).1 =
      [(iconPngPath icon.name, { format := "PNG", quality := 95, image := img }),
       (iconWebpPath icon.name, { format := "WebP", quality := 85, image := img })] := by
  revert h
  unfold iconStep
  repeat' split
  all_goals intro h
  all_goals simp_all

theorem iconStep_pair_true (w : World) (i : Nat) (icon : Icon)
    (x y : String × FileContent)
    (h : writesOf (iconStep w i icon).1 = [x, y]) :
    (iconStep w i icon).2 = true := by
  revert h
  unfold iconStep
  repeat' split
  all_goals intro h
  all_goals simp_all

theorem iconStep_nonSuccess (w : World) (i : Nat) (icon : Icon)
    (s : Nat) (j : Except PyExc ApiBody)
    (hp : w.post i = PostReply.ok s j) (hs : nonSuccess s) :
    iconStep w i icon =
      ([Effect.print ("🎨 Generating " ++ icon.name ++ " icon..."),
        Effect.httpPost stabilityUrl (iconRequestData icon) 120,
        Effect.print ("   ❌ API Request failed for " ++ icon.name)], false) := by
  simp [iconStep, hp, hs, iconHandler]

theorem iconStep_noArtifacts (w : World) (i : Nat) (icon : Icon)
    (s : Nat) (hp : w.post i = PostReply.ok s (Except.ok { artifacts? := none }))
    (hs : ¬ nonSuccess s) :
    iconStep w i icon =
      ([Effect.print ("🎨 Generating " ++ icon.name ++ " icon..."),
        Effect.httpPost stabilityUrl (iconRequestData icon) 120,
        Effect.print ("   ❌ Error generating " ++ icon.name
          ++ ": No image data in response")], false) := by
  simp [iconStep, hp, hs]

theorem iconStep_emptyArtifacts (w : World) (i : Nat) (icon : Icon)
    (s : Nat) (hp : w.post i = PostReply.ok s (Except.ok { artifacts? := some [] }))
    (hs : ¬ nonSuccess s) :
    iconStep w i icon =
      ([Effect.print ("🎨 Generating " ++ icon.name ++ " icon..."),
        Effect.httpPost stabilityUrl (iconRequestData icon) 120,
        Effect.print ("   ❌ Error generating " ++ icon.name)], false) := by
  simp [iconStep, hp, hs, iconHandler]

theorem iconStep_trunc (w : World) (i : Nat) (icon : Icon) :
    iconStep (truncWorld w) i icon = iconStep w i icon := by
  unfold iconStep truncWorld
  rcases hp : w.post i with _ | ⟨s, j⟩ <;> simp only [hp]
  · rfl
  rcases j with e | body
  · rfl
  rcases body with ⟨_ | arts⟩
  · rfl
  rcases arts with _ | ⟨a, rest⟩
  · rfl
  · rfl

theorem iconsLoopAux_posts (w : World) (l : List Icon) (i : Nat) :
    postsOf (iconsLoopAux w i l).1 =
      l.map (fun icon => (stabilityUrl, iconRequestData icon, 120)) := by
  induction l generalizing i with
  | nil => rfl
  | cons icon rest ih =>
    simp [iconsLoopAux, iconStep_posts, ih]

theorem iconsLoopAux_cnt_le (w : World) (l : List Icon) (i : Nat) :
    (iconsLoopAux w i l).2 ≤ l.length := by
  induction l generalizing i with
  | nil => simp [iconsLoopAux]
  | cons icon rest ih =>
    simp only [iconsLoopAux, List.length_cons]
    have := ih (i + 1)
    split <;> omega

theorem iconsLoopAux_allFail (w : World) (l : List Icon) (i : Nat)
    (h : ∀ j, i ≤ j → j < i + l.length → replyFails (w.post j) = true) :
    writesOf (iconsLoopAux w i l).1 = [] ∧ (iconsLoopAux w i l).2 = 0 := by
  induction l generalizing i with
  | nil => simp [iconsLoopAux]
  | cons icon rest ih =>
    have hstep := iconStep_replyFails w i icon (h i le_rfl (by simp))
    have hrest := ih (i + 1) (fun j h1 h2 => h j (by omega) (by simp at h2 ⊢; omega))
    simp only [iconsLoopAux]
    constructor
    · simp [hstep.2, hrest.1]
    · simp [hstep.1, hrest.2]

theorem iconsLoopAux_fail_lt (w : World) (l : List Icon) (i j : Nat)
    (h1 : i ≤ j) (h2 : j < i + l.length)
    (hf : replyFails (w.post j) = true) :
    (iconsLoopAux w i l).2 < l.length := by
  induction l generalizing i with
  | nil => simp at h2; omega
  | cons icon rest ih =>
    simp only [iconsLoopAux, List.length_cons]
    by_cases hij : j = i
    · subst hij
      have hstep := iconStep_replyFails w j icon hf
      rw [hstep.1]
      have := iconsLoopAux_cnt_le w rest (j + 1)
      simp
      omega
    · have hrest := ih (i + 1) (by omega) (by simp at h2 ⊢; omega)
      split <;> omega

theorem iconsLoopAux_trunc (w : World) (l : List Icon) (i : Nat) :
    iconsLoopAux (truncWorld w) i l = iconsLoopAux w i l := by
  induction l generalizing i with
  | nil => rfl
  | cons icon rest ih =>
    simp [iconsLoopAux, iconStep_trunc, ih]

theorem gbi_apiKey_none (w : World) (h : w.apiKey = none) :
    generate_business_icons w =
      (Outcome.ret false, [Effect.print keyMissingMsg]) := by
  simp [generate_business_icons, h]

theorem gbi_mkdirFail (w : World) (k : String) (e : PyExc)
    (hk : w.apiKey = some k) (hm : w.makedirs iconsDir = Except.error e) :
    generate_business_icons w = (Outcome.uncaught e, []) := by
  simp [generate_business_icons, hk, hm]

theorem gbi_ok (w : World) (k : String)
    (hk : w.apiKey = some k) (hm : w.makedirs iconsDir = Except.ok ()) :
    generate_business_icons w =
      (Outcome.ret ((iconsLoopAux w 0 icons).2 == 6),
       Effect.makedirs iconsDir :: (iconsLoopAux w 0 icons).1
         ++ [Effect.print "📊 Icon Generation Summary:",
             Effect.print ("   ✅ Successfully generated: "
               ++ toString (iconsLoopAux w 0 icons).2 ++ "/6 icons"),
             Effect.print "   📁 Location: assets/icons/",
             Effect.print "   📐 Dimensions: 1024x1024 (high resolution)",
             Effect.print "   🌐 Both PNG and WebP versions created"]) := by
  simp [generate_business_icons, hk, hm]

theorem gbi_writes (w : World) (k : String)
    (hk : w.apiKey = some k) (hm : w.makedirs iconsDir = Except.ok ()) :
    writesOf (generate_business_icons w).2 =
      writesOf (iconsLoopAux w 0 icons).1 := by
  rw [gbi_ok w k hk hm]
  simp

theorem gbi_posts (w : World) (k : String)
    (hk : w.apiKey = some k) (hm : w.makedirs iconsDir = Except.ok ()) :
    postsOf (generate_business_icons w).2 =
      icons.map (fun icon => (stabilityUrl, iconRequestData icon, 120)) := by
  rw [gbi_ok w k hk hm]
  simp [iconsLoopAux_posts]

theorem gbi_isRet (w : World)
    (h : w.apiKey = none ∨ w.makedirs iconsDir = Except.ok ()) :
    ∃ b, (generate_business_icons w).1 = Outcome.ret b := by
  rcases h with h | h
  · rw [gbi_apiKey_none w h]
    exact ⟨false, rfl⟩
  · rcases hk : w.apiKey with _ | k
    · rw [gbi_apiKey_none w hk]
      exact ⟨false, rfl⟩
    · rw [gbi_ok w k hk h]
      exact ⟨_, rfl⟩

theorem gbi_trunc (w : World) :
    generate_business_icons (truncWorld w) = generate_business_icons w := by
  unfold generate_business_icons
  have h1 : (truncWorld w).apiKey = w.apiKey := rfl
  have h2 : (truncWorld w).makedirs = w.makedirs := rfl
  rw [h1, h2, iconsLoopAux_trunc]

theorem applyWrites_not_mem (ws : List (String × FileContent)) (fs : FS)
    (q : String) (h : ¬ hasKey ws q) :
    applyWrites fs ws q = fs q := by
  induction ws generalizing fs with
  | nil => rfl
  | cons e ws ih =>
    obtain ⟨p, c⟩ := e
    have hq : q ≠ p := by
      intro hqp
      exact h ⟨(p, c), by simp, hqp.symm⟩
    have hrest : ¬ hasKey ws q := by
      intro ⟨e, he, heq⟩
      exact h ⟨e, List.mem_cons_of_mem _ he, heq⟩
    simp only [applyWrites]
    rw [ih _ hrest]
    simp [hq]

theorem applyWrites_congr (ws : List (String × FileContent)) (fs g : FS)
    (h : ∀ q, fs q = g q ∨ hasKey ws q) :
    applyWrites fs ws = applyWrites g ws := by
  induction ws generalizing fs g with
  | nil =>
    funext q
    rcases h q with hq | hq
    · exact hq
    · exact absurd hq (by intro ⟨e, he, _⟩; simp at he)
  | cons e ws ih =>
    obtain ⟨p, c⟩ := e
    simp only [applyWrites]
    apply ih
    intro q
    by_cases hqp : q = p
    · left; simp [hqp]
    · rcases h q with hq | ⟨e, he, heq⟩
      · left; simp [hqp, hq]
      · rcases List.mem_cons.mp he with rfl | he
        · exact absurd heq.symm hqp
        · right; exact ⟨e, he, heq⟩

theorem applyWrites_idem (ws : List (String × FileContent)) (fs : FS) :
    applyWrites (applyWrites fs ws) ws = applyWrites fs ws := by
  apply applyWrites_congr
  intro q
  by_cases h : hasKey ws q
  · right; exact h
  · left; rw [applyWrites_not_mem ws fs q h]

@[simp]
theorem fsEffectsOf_nil : fsEffectsOf [] = [] := rfl

@[simp]
theorem fsEffectsOf_print (m : String) (es : List Effect) :
    fsEffectsOf (Effect.print m :: es) = fsEffectsOf es := rfl

@[simp]
theorem fsEffectsOf_httpPost (u : String) (d : RequestData) (t : Nat)
    (es : List Effect) :
    fsEffectsOf (Effect.httpPost u d t :: es) = fsEffectsOf es := rfl

@[simp]
theorem fsEffectsOf_makedirs (d : String) (es : List Effect) :
    fsEffectsOf (Effect.makedirs d :: es) =
      Effect.makedirs d :: fsEffectsOf es := rfl

@[simp]
theorem fsEffectsOf_fileWrite (p : String) (c : FileContent)
    (es : List Effect) :
    fsEffectsOf (Effect.fileWrite p c :: es) =
      Effect.fileWrite p c :: fsEffectsOf es := rfl

@[simp]
theorem fsEffectsOf_append (xs ys : List Effect) :
    fsEffectsOf (xs ++ ys) = fsEffectsOf xs ++ fsEffectsOf ys := by
  simp [fsEffectsOf]

@[simp]
theorem fsEffectsOf_iconHandler (icon : Icon) (e : PyExc) :
    fsEffectsOf (iconHandler icon e) = [] := by
  cases e <;> rfl

theorem iconStep_replyFails_fs (w : World) (i : Nat) (icon : Icon)
    (h : replyFails (w.post i) = true) :
    fsEffectsOf (iconStep w i icon).1 = [] := by
  unfold iconStep
  rcases hp : w.post i with _ | ⟨s, j⟩
  · simp
  · rw [hp] at h
    simp only [replyFails] at h
    by_cases hs : nonSuccess s
    · simp [hs]
    · rw [if_neg hs] at h
      rcases j with e | ⟨_ | ⟨_ | ⟨a, arts⟩⟩⟩
      · simp [hs]
      · simp [hs]
      · simp [hs]
      · simp at h

theorem iconsLoopAux_allFail_fs (w : World) (l : List Icon) (i : Nat)
    (h : ∀ j, i ≤ j → j < i + l.length → replyFails (w.post j) = true) :
    fsEffectsOf (iconsLoopAux w i l).1 = [] := by
  induction l generalizing i with
  | nil => simp [iconsLoopAux]
  | cons icon rest ih =>
    have hstep := iconStep_replyFails_fs w i icon (h i le_rfl (by simp))
    have hrest := ih (i + 1) (fun j h1 h2 => h j (by omega) (by simp at h2 ⊢; omega))
    simp only [iconsLoopAux]
    simp [hstep, hrest]

theorem iconStep_success (w : World) (i : Nat) (icon : Icon)
    (s : Nat) (a : Artifact) (rest : List Artifact) (bs : String)
    (img : PilImage)
    (hp : w.post i = PostReply.ok s (Except.ok { artifacts? := some (a :: rest) }))
    (hs : ¬ nonSuccess s)
    (hd : w.b64decode a.base64 = Except.ok bs)
    (ho : w.imageOpen bs = Except.ok img)
    (h1 : w.save (iconPngPath icon.name) "PNG" 95 img = Except.ok ())
    (h2 : w.save (iconWebpPath icon.name) "WebP" 85 img = Except.ok ()) :
    (iconStep w i icon).2 = true ∧
    writesOf (iconStep w i icon).1 =
      [(iconPngPath icon.name, { format := "PNG", quality := 95, image := img }),
       (iconWebpPath icon.name, { format := "WebP", quality := 85, image := img })] := by
  simp [iconStep, hp, hs, hd, ho, h1, h2]

theorem iconsLoopAux_writes_mem (w : World) (l : List Icon) (i : Nat)
    (p : String) (c : FileContent)
    (h : (p, c) ∈ writesOf (iconsLoopAux w i l).1) :
    ∃ idx icon, icon ∈ l ∧ (p, c) ∈ writesOf (iconStep w idx icon).1 := by
  induction l generalizing i with
  | nil => simp [iconsLoopAux] at h
  | cons icon rest ih =>
    simp only [iconsLoopAux, writesOf_append, List.mem_append] at h
    rcases h with h | h
    · exact ⟨i, icon, List.mem_cons_self _ _, h⟩
    · obtain ⟨idx, icon2, hmem, hw⟩ := ih (i + 1) h
      exact ⟨idx, icon2, List.mem_cons_of_mem _ hmem, hw⟩

/-- C3: for every invocation of any of the four runners, if the
STABILITY_API_KEY environment variable is unset, the runner returns False
and its whole trace is the single error print: no HTTP POST is issued, no
directory is created, and no file is written. -/
theorem C3_theorem (w : World) (h : w.apiKey = none) :
    generate_dashboard_mockup w =
      (Outcome.ret false, [Effect.print keyMissingMsg]) ∧
    generate_hero_image w =
      (Outcome.ret false, [Effect.print keyMissingMsg]) ∧
    generate_investment_visual w =
      (Outcome.ret false, [Effect.print keyMissingMsg]) ∧
    generate_business_icons w =
      (Outcome.ret false, [Effect.print keyMissingMsg]) ∧
    postsOf [Effect.print keyMissingMsg] = [] ∧
    fsEffectsOf [Effect.print keyMissingMsg] = [] :=
  ⟨runSingle_apiKey_none dashboardConfig w h,
   runSingle_apiKey_none heroConfig w h,
   runSingle_apiKey_none investmentConfig w h,
   gbi_apiKey_none w h, rfl, rfl⟩

/-- Witness for C3 at the concrete world `noKeyWorld`. -/
theorem C3_witness :
    generate_dashboard_mockup noKeyWorld =
      (Outcome.ret false, [Effect.print keyMissingMsg]) ∧
    generate_hero_image noKeyWorld =
      (Outcome.ret false, [Effect.print keyMissingMsg]) ∧
    generate_investment_visual noKeyWorld =
      (Outcome.ret false, [Effect.print keyMissingMsg]) ∧
    generate_business_icons noKeyWorld =
      (Outcome.ret false, [Effect.print keyMissingMsg]) ∧
    postsOf [Effect.print keyMissingMsg] = [] ∧
    fsEffectsOf [Effect.print keyMissingMsg] = [] :=
  C3_theorem noKeyWorld rfl

/-- C1 is false as stated: in the world `mixedStatusWorld` the first icon
request of `generate_business_icons` receives a non-success status 500, so
the claim requires the runner to stop with no output file produced by the
invocation; instead the runner continues (all six POSTs are issued) and
writes ten files for the five successful requests before returning
failure. -/
theorem C1_counterexample :
    mixedStatusWorld.post 0 = PostReply.ok 500 (Except.ok okBody) ∧
    nonSuccess 500 ∧
    (generate_business_icons mixedStatusWorld).1 = Outcome.ret false ∧
    (postsOf (generate_business_icons mixedStatusWorld).2).length = 6 ∧
    (writesOf (generate_business_icons mixedStatusWorld).2).length = 10 :=
  ⟨rfl, by decide, rfl, rfl, rfl⟩

/-- C1 (amended): on a non-success HTTP status, the three single-image
runners report the error, stop, return failure and write no file, exactly
as claimed; in `generate_business_icons` a request with a non-success
status produces no output for that request and forces a failure return,
but the loop continues with the remaining icons, so files of other,
successful requests may still be written — the invocation writes zero
files when every request receives a non-success status. -/
theorem C1_theorem (w : World) :
    (∀ k s j, w.apiKey = some k → w.post 0 = PostReply.ok s j →
      nonSuccess s →
      generate_dashboard_mockup w =
        (Outcome.ret false,
         [Effect.httpPost stabilityUrl (mkRequestData dashboardConfig) 120,
          Effect.print dashboardConfig.requestFailMsg]) ∧
      generate_hero_image w =
        (Outcome.ret false,
         [Effect.httpPost stabilityUrl (mkRequestData heroConfig) 120,
          Effect.print heroConfig.requestFailMsg]) ∧
      generate_investment_visual w =
        (Outcome.ret false,
         [Effect.httpPost stabilityUrl (mkRequestData investmentConfig) 120,
          Effect.print investmentConfig.requestFailMsg])) ∧
    (∀ i icon s j, w.post i = PostReply.ok s j → nonSuccess s →
      iconStep w i icon =
        ([Effect.print ("🎨 Generating " ++ icon.name ++ " icon..."),
          Effect.httpPost stabilityUrl (iconRequestData icon) 120,
          Effect.print ("   ❌ API Request failed for " ++ icon.name)],
         false)) ∧
    (∀ k, w.apiKey = some k → w.makedirs iconsDir = Except.ok () →
      (∃ i, i < 6 ∧ ∃ s j, w.post i = PostReply.ok s j ∧ nonSuccess s) →
      (generate_business_icons w).1 = Outcome.ret false) ∧
    (∀ k, w.apiKey = some k → w.makedirs iconsDir = Except.ok () →
      (∀ i, i < 6 → ∃ s j, w.post i = PostReply.ok s j ∧ nonSuccess s) →
      (generate_business_icons w).1 = Outcome.ret false ∧
      writesOf (generate_business_icons w).2 = []) := by
  refine ⟨?_, ?_, ?_, ?_⟩
  · intro k s j hk hp hs
    exact ⟨runSingle_nonSuccess dashboardConfig w k s j hk hp hs,
           runSingle_nonSuccess heroConfig w k s j hk hp hs,
           runSingle_nonSuccess investmentConfig w k s j hk hp hs⟩
  · intro i icon s j hp hs
    exact iconStep_nonSuccess w i icon s j hp hs
  · rintro k hk hm ⟨i, hi, s, j, hp, hs⟩
    have hf : replyFails (w.post i) = true := by
      rw [hp]; simp [replyFails, hs]
    have h6 : icons.length = 6 := rfl
    have hlt := iconsLoopAux_fail_lt w icons 0 i (Nat.zero_le i)
      (by omega) hf
    have hne : (iconsLoopAux w 0 icons).2 ≠ 6 := by omega
    rw [gbi_ok w k hk hm]
    simp only []
    exact congrArg Outcome.ret (beq_eq_false_iff_ne.mpr hne)
  · intro k hk hm hall
    have h6 : icons.length = 6 := rfl
    have hf : ∀ j2, 0 ≤ j2 → j2 < 0 + icons.length →
        replyFails (w.post j2) = true := by
      intro j2 _ hj2
      obtain ⟨s, j, hp, hs⟩ := hall j2 (by omega)
      rw [hp]; simp [replyFails, hs]
    obtain ⟨hw, hc⟩ := iconsLoopAux_allFail w icons 0 hf
    constructor
    · rw [gbi_ok w k hk hm]
      simp only []
      rw [hc]
      rfl
    · rw [gbi_writes w k hk hm, hw]

/-- Witness for the amended C1: in `allFailWorld` every request receives
status 500 and the icons runner returns failure with zero writes; in
`mixedStatusWorld` the dashboard runner, whose single request receives
status 500, fails with only the POST and the error print in its trace. -/
theorem C1_witness :
    ((generate_business_icons allFailWorld).1 = Outcome.ret false ∧
     writesOf (generate_business_icons allFailWorld).2 = []) ∧
    generate_dashboard_mockup mixedStatusWorld =
      (Outcome.ret false,
       [Effect.httpPost stabilityUrl (mkRequestData dashboardConfig) 120,
        Effect.print dashboardConfig.requestFailMsg]) :=
  ⟨(C1_theorem allFailWorld).2.2.2 "sk-test" rfl rfl
     (fun _ _ => ⟨500, Except.ok okBody, rfl, by decide⟩),
   ((C1_theorem mixedStatusWorld).1 "sk-test" 500 (Except.ok okBody)
     rfl rfl (by decide)).1⟩

/-- C2 is false as stated: in `generate_business_icons` the
`os.makedirs` call sits outside the `try` block, so a directory-creation
failure propagates out of the runner as an uncaught exception instead of
being caught and surfaced as a False return.  In `mkdirFailWorld` the
credential is present and `os.makedirs` raises `OSError`: the invocation
ends `uncaught`, not with a boolean return. -/
theorem C2_counterexample :
    mkdirFailWorld.apiKey = some "sk-test" ∧
    mkdirFailWorld.makedirs iconsDir = Except.error PyExc.osError ∧
    generate_business_icons mkdirFailWorld =
      (Outcome.uncaught PyExc.osError, []) ∧
    (generate_business_icons mkdirFailWorld).1 ≠ Outcome.ret false ∧
    (generate_business_icons mkdirFailWorld).1 ≠ Outcome.ret true :=
  ⟨rfl, rfl, rfl, by decide, by decide⟩

/-- C2 (amended): every error in the taxonomy is caught inside the
invocation, logged and surfaced as a False return — with one exception:
in `generate_business_icons` the directory-creation call happens outside
the `try` block, so its failure propagates as an uncaught exception.  The
three single-image runners never let an exception escape (their result is
always a boolean return), and every failure return of a single-image
runner ends its trace with an error print; the icons runner also always
returns a boolean when directory creation succeeds or the credential is
absent. -/
theorem C2_theorem (w : World) :
    (∃ b, (generate_dashboard_mockup w).1 = Outcome.ret b) ∧
    (∃ b, (generate_hero_image w).1 = Outcome.ret b) ∧
    (∃ b, (generate_investment_visual w).1 = Outcome.ret b) ∧
    ((w.apiKey = none ∨ w.makedirs iconsDir = Except.ok ()) →
      ∃ b, (generate_business_icons w).1 = Outcome.ret b) ∧
    (∀ k e, w.apiKey = some k → w.makedirs iconsDir = Except.error e →
      (generate_business_icons w).1 = Outcome.uncaught e) ∧
    ((generate_dashboard_mockup w).1 = Outcome.ret false →
      ∃ m, (generate_dashboard_mockup w).2.getLast? =
        some (Effect.print m)) ∧
    ((generate_hero_image w).1 = Outcome.ret false →
      ∃ m, (generate_hero_image w).2.getLast? = some (Effect.print m)) ∧
    ((generate_investment_visual w).1 = Outcome.ret false →
      ∃ m, (generate_investment_visual w).2.getLast? =
        some (Effect.print m)) := by
  refine ⟨runSingle_isRet dashboardConfig w, runSingle_isRet heroConfig w,
    runSingle_isRet investmentConfig w, gbi_isRet w, ?_,
    runSingle_false_lastPrint dashboardConfig w,
    runSingle_false_lastPrint heroConfig w,
    runSingle_false_lastPrint investmentConfig w⟩
  intro k e hk hm
  rw [gbi_mkdirFail w k e hk hm]

/-- Witness for the amended C2: the uncaught-escape clause at
`mkdirFailWorld`, the boolean-return clause at `goodWorld`, and the
failure-logging clause at `mixedNoArtWorld`. -/
theorem C2_witness :
    (generate_business_icons mkdirFailWorld).1 =
      Outcome.uncaught PyExc.osError ∧
    (∃ b, (generate_business_icons goodWorld).1 = Outcome.ret b) ∧
    (∃ m, (generate_dashboard_mockup mixedNoArtWorld).2.getLast? =
      some (Effect.print m)) :=
  ⟨(C2_theorem mkdirFailWorld).2.2.2.2.1 "sk-test" PyExc.osError rfl rfl,
   (C2_theorem goodWorld).2.2.2.1 (Or.inr rfl),
   (C2_theorem mixedNoArtWorld).2.2.2.2.2.1 rfl⟩

/-- C4 is false as stated: in the world `mixedNoArtWorld` the first icon
request of `generate_business_icons` receives a success status whose JSON
body lacks the "artifacts" field; the claim requires the runner to write
zero files, yet ten files are written for the other five requests (the
runner does return failure). -/
theorem C4_counterexample :
    mixedNoArtWorld.post 0 =
      PostReply.ok 200 (Except.ok { artifacts? := none }) ∧
    ¬ nonSuccess 200 ∧
    (generate_business_icons mixedNoArtWorld).1 = Outcome.ret false ∧
    (writesOf (generate_business_icons mixedNoArtWorld).2).length = 10 :=
  ⟨rfl, by decide, rfl, rfl⟩

/-- C4 (amended): a success-status response without the "artifacts" field
makes the three single-image runners report the error, return failure and
write zero files, exactly as claimed; in `generate_business_icons` such a
response produces no output for its own request and forces a failure
return, but other successful requests of the same invocation may still
write files — the invocation writes zero files when every response lacks
the field. -/
theorem C4_theorem (w : World) :
    (∀ k s, w.apiKey = some k →
      w.post 0 = PostReply.ok s (Except.ok { artifacts? := none }) →
      ¬ nonSuccess s →
      generate_dashboard_mockup w =
        (Outcome.ret false,
         [Effect.httpPost stabilityUrl (mkRequestData dashboardConfig) 120,
          Effect.print dashboardConfig.noDataMsg]) ∧
      generate_hero_image w =
        (Outcome.ret false,
         [Effect.httpPost stabilityUrl (mkRequestData heroConfig) 120,
          Effect.print heroConfig.noDataMsg]) ∧
      generate_investment_visual w =
        (Outcome.ret false,
         [Effect.httpPost stabilityUrl (mkRequestData investmentConfig) 120,
          Effect.print investmentConfig.noDataMsg])) ∧
    (∀ i icon s,
      w.post i = PostReply.ok s (Except.ok { artifacts? := none }) →
      ¬ nonSuccess s →
      iconStep w i icon =
        ([Effect.print ("🎨 Generating " ++ icon.name ++ " icon..."),
          Effect.httpPost stabilityUrl (iconRequestData icon) 120,
          Effect.print ("   ❌ Error generating " ++ icon.name
            ++ ": No image data in response")], false)) ∧
    (∀ k, w.apiKey = some k → w.makedirs iconsDir = Except.ok () →
      (∃ i, i < 6 ∧ ∃ s, w.post i =
        PostReply.ok s (Except.ok { artifacts? := none })) →
      (generate_business_icons w).1 = Outcome.ret false) ∧
    (∀ k, w.apiKey = some k → w.makedirs iconsDir = Except.ok () →
      (∀ i, i < 6 → ∃ s, w.post i =
        PostReply.ok s (Except.ok { artifacts? := none })) →
      (generate_business_icons w).1 = Outcome.ret false ∧
      writesOf (generate_business_icons w).2 = []) := by
  refine ⟨?_, ?_, ?_, ?_⟩
  · intro k s hk hp hs
    exact ⟨runSingle_noArtifacts dashboardConfig w k s hk hp hs,
           runSingle_noArtifacts heroConfig w k s hk hp hs,
           runSingle_noArtifacts investmentConfig w k s hk hp hs⟩
  · intro i icon s hp hs
    exact iconStep_noArtifacts w i icon s hp hs
  · rintro k hk hm ⟨i, hi, s, hp⟩
    have hf : replyFails (w.post i) = true := by
      rw [hp]; simp [replyFails]
    have h6 : icons.length = 6 := rfl
    have hlt := iconsLoopAux_fail_lt w icons 0 i (Nat.zero_le i)
      (by omega) hf
    have hne : (iconsLoopAux w 0 icons).2 ≠ 6 := by omega
    rw [gbi_ok w k hk hm]
    simp only []
    exact congrArg Outcome.ret (beq_eq_false_iff_ne.mpr hne)
  · intro k hk hm hall
    have h6 : icons.length = 6 := rfl
    have hf : ∀ j2, 0 ≤ j2 → j2 < 0 + icons.length →
        replyFails (w.post j2) = true := by
      intro j2 _ hj2
      obtain ⟨s, hp⟩ := hall j2 (by omega)
      rw [hp]; simp [replyFails]
    obtain ⟨hw, hc⟩ := iconsLoopAux_allFail w icons 0 hf
    constructor
    · rw [gbi_ok w k hk hm]
      simp only []
      rw [hc]
      rfl
    · rw [gbi_writes w k hk hm, hw]

/-- Witness for the amended C4: in `mixedNoArtWorld` the dashboard runner
receives a 200 response without "artifacts" and fails with zero writes; in
`allNoArtWorld` the icons runner, whose six responses all lack the field,
fails with zero writes. -/
theorem C4_witness :
    generate_dashboard_mockup mixedNoArtWorld =
      (Outcome.ret false,
       [Effect.httpPost stabilityUrl (mkRequestData dashboardConfig) 120,
        Effect.print dashboardConfig.noDataMsg]) ∧
    ((generate_business_icons allNoArtWorld).1 = Outcome.ret false ∧
     writesOf (generate_business_icons allNoArtWorld).2 = []) :=
  ⟨((C4_theorem mixedNoArtWorld).1 "sk-test" 200 rfl rfl (by decide)).1,
   (C4_theorem allNoArtWorld).2.2.2 "sk-test" rfl rfl
     (fun _ _ => ⟨200, rfl⟩)⟩

/-- C9: a response whose "artifacts" field holds an empty list makes the
indexing of the first artifact raise, and the generic `except Exception`
handler catches it: each runner stays inside its boolean-return contract,
reports failure (the generic error message, not the request-failure one),
and writes zero files for that request; an icons invocation whose six
responses all carry an empty list returns failure with zero writes. -/
theorem C9_theorem (w : World) :
    (∀ k s, w.apiKey = some k →
      w.post 0 = PostReply.ok s (Except.ok { artifacts? := some [] }) →
      ¬ nonSuccess s →
      generate_dashboard_mockup w =
        (Outcome.ret false,
         [Effect.httpPost stabilityUrl (mkRequestData dashboardConfig) 120,
          Effect.print dashboardConfig.genericErrMsg]) ∧
      generate_hero_image w =
        (Outcome.ret false,
         [Effect.httpPost stabilityUrl (mkRequestData heroConfig) 120,
          Effect.print heroConfig.genericErrMsg]) ∧
      generate_investment_visual w =
        (Outcome.ret false,
         [Effect.httpPost stabilityUrl (mkRequestData investmentConfig) 120,
          Effect.print investmentConfig.genericErrMsg])) ∧
    (∀ i icon s,
      w.post i = PostReply.ok s (Except.ok { artifacts? := some [] }) →
      ¬ nonSuccess s →
      iconStep w i icon =
        ([Effect.print ("🎨 Generating " ++ icon.name ++ " icon..."),
          Effect.httpPost stabilityUrl (iconRequestData icon) 120,
          Effect.print ("   ❌ Error generating " ++ icon.name)],
         false)) ∧
    (∀ k, w.apiKey = some k → w.makedirs iconsDir = Except.ok () →
      (∀ i, i < 6 → ∃ s, w.post i =
        PostReply.ok s (Except.ok { artifacts? := some [] })) →
      (generate_business_icons w).1 = Outcome.ret false ∧
      writesOf (generate_business_icons w).2 = []) := by
  refine ⟨?_, ?_, ?_⟩
  · intro k s hk hp hs
    exact ⟨runSingle_emptyArtifacts dashboardConfig w k s hk hp hs,
           runSingle_emptyArtifacts heroConfig w k s hk hp hs,
           runSingle_emptyArtifacts investmentConfig w k s hk hp hs⟩
  · intro i icon s hp hs
    exact iconStep_emptyArtifacts w i icon s hp hs
  · intro k hk hm hall
    have h6 : icons.length = 6 := rfl
    have hf : ∀ j2, 0 ≤ j2 → j2 < 0 + icons.length →
        replyFails (w.post j2) = true := by
      intro j2 _ hj2
      obtain ⟨s, hp⟩ := hall j2 (by omega)
      rw [hp]; simp [replyFails]
    obtain ⟨hw, hc⟩ := iconsLoopAux_allFail w icons 0 hf
    constructor
    · rw [gbi_ok w k hk hm]
      simp only []
      rw [hc]
      rfl
    · rw [gbi_writes w k hk hm, hw]

/-- Witness for C9 at `emptyArtWorld`, where every response carries an
empty "artifacts" list. -/
theorem C9_witness :
    generate_dashboard_mockup emptyArtWorld =
      (Outcome.ret false,
       [Effect.httpPost stabilityUrl (mkRequestData dashboardConfig) 120,
        Effect.print dashboardConfig.genericErrMsg]) ∧
    ((generate_business_icons emptyArtWorld).1 = Outcome.ret false ∧
     writesOf (generate_business_icons emptyArtWorld).2 = []) :=
  ⟨((C9_theorem emptyArtWorld).1 "sk-test" 200 rfl rfl (by decide)).1,
   (C9_theorem emptyArtWorld).2.2 "sk-test" rfl rfl
     (fun _ _ => ⟨200, rfl⟩)⟩

/-- C5: on the success path of each runner, the decoded image is written
exactly twice, to the fixed PNG path with format "PNG" and quality 95 and
to the fixed WebP path with format "WebP" and quality 85; a success return
can only arise with exactly these two writes, and conversely any run with
two writes returned success. -/
theorem C5_theorem (w : World) :
    (∀ k s a rest bs img, w.apiKey = some k →
      w.post 0 = PostReply.ok s
        (Except.ok { artifacts? := some (a :: rest) }) →
      ¬ nonSuccess s →
      w.b64decode a.base64 = Except.ok bs →
      w.imageOpen bs = Except.ok img →
      w.makedirs assetsDir = Except.ok () →
      w.save dashboardConfig.pngPath "PNG" 95 img = Except.ok () →
      w.save dashboardConfig.webpPath "WebP" 85 img = Except.ok () →
      (generate_dashboard_mockup w).1 = Outcome.ret true ∧
      writesOf (generate_dashboard_mockup w).2 =
        [(dashboardConfig.pngPath,
          { format := "PNG", quality := 95, image := img }),
         (dashboardConfig.webpPath,
          { format := "WebP", quality := 85, image := img })]) ∧
    ((generate_dashboard_mockup w).1 = Outcome.ret true →
      ∃ img, writesOf (generate_dashboard_mockup w).2 =
        [(dashboardConfig.pngPath,
          { format := "PNG", quality := 95, image := img }),
         (dashboardConfig.webpPath,
          { format := "WebP", quality := 85, image := img })]) ∧
    ((generate_hero_image w).1 = Outcome.ret true →
      ∃ img, writesOf (generate_hero_image w).2 =
        [(heroConfig.pngPath,
          { format := "PNG", quality := 95, image := img }),
         (heroConfig.webpPath,
          { format := "WebP", quality := 85, image := img })]) ∧
    ((generate_investment_visual w).1 = Outcome.ret true →
      ∃ img, writesOf (generate_investment_visual w).2 =
        [(investmentConfig.pngPath,
          { format := "PNG", quality := 95, image := img }),
         (investmentConfig.webpPath,
          { format := "WebP", quality := 85, image := img })]) ∧
    (∀ x y, writesOf (generate_dashboard_mockup w).2 = [x, y] →
      (generate_dashboard_mockup w).1 = Outcome.ret true) ∧
    (∀ x y, writesOf (generate_hero_image w).2 = [x, y] →
      (generate_hero_image w).1 = Outcome.ret true) ∧
    (∀ x y, writesOf (generate_investment_visual w).2 = [x, y] →
      (generate_investment_visual w).1 = Outcome.ret true) ∧
    (∀ i icon s a rest bs img,
      w.post i = PostReply.ok s
        (Except.ok { artifacts? := some (a :: rest) }) →
      ¬ nonSuccess s →
      w.b64decode a.base64 = Except.ok bs →
      w.imageOpen bs = Except.ok img →
      w.save (iconPngPath icon.name) "PNG" 95 img = Except.ok () →
      w.save (iconWebpPath icon.name) "WebP" 85 img = Except.ok () →
      (iconStep w i icon).2 = true ∧
      writesOf (iconStep w i icon).1 =
        [(iconPngPath icon.name,
          { format := "PNG", quality := 95, image := img }),
         (iconWebpPath icon.name,
          { format := "WebP", quality := 85, image := img })]) ∧
    (∀ i icon, (iconStep w i icon).2 = true →
      ∃ img, writesOf (iconStep w i icon).1 =
        [(iconPngPath icon.name,
          { format := "PNG", quality := 95, image := img }),
         (iconWebpPath icon.name,
          { format := "WebP", quality := 85, image := img })]) ∧
    (∀ i icon x y, writesOf (iconStep w i icon).1 = [x, y] →
      (iconStep w i icon).2 = true) := by
  refine ⟨?_, runSingle_ret_true dashboardConfig w,
    runSingle_ret_true heroConfig w,
    runSingle_ret_true investmentConfig w,
    fun x y h => runSingle_two_writes_ret_true dashboardConfig w x y h,
    fun x y h => runSingle_two_writes_ret_true heroConfig w x y h,
    fun x y h => runSingle_two_writes_ret_true investmentConfig w x y h,
    ?_, fun i icon h => iconStep_true_writes w i icon h,
    fun i icon x y h => iconStep_pair_true w i icon x y h⟩
  · intro k s a rest bs img hk hp hs hd ho hm h1 h2
    exact runSingle_success dashboardConfig w k s a rest bs img
      hk hp hs hd ho hm h1 h2
  · intro i icon s a rest bs img hp hs hd ho h1 h2
    exact iconStep_success w i icon s a rest bs img hp hs hd ho h1 h2

/-- Witness for C5 at `goodWorld`: the dashboard run succeeds and its two
writes are exactly the fixed PNG and WebP files of the decoded image. -/
theorem C5_witness :
    (generate_dashboard_mockup goodWorld).1 = Outcome.ret true ∧
    writesOf (generate_dashboard_mockup goodWorld).2 =
      [(dashboardConfig.pngPath,
        { format := "PNG", quality := 95, image := testImage }),
       (dashboardConfig.webpPath,
        { format := "WebP", quality := 85, image := testImage })] :=
  (C5_theorem goodWorld).1 "sk-test" 200 okArtifact [] okArtifact.base64
    testImage rfl rfl (by decide) rfl rfl rfl rfl rfl

/-- C6: every request payload any of the four runners builds carries
`samples = 1`, and at most one image is produced per API call: each run is
unchanged when every response is truncated to its first artifact, and a
single-image run never performs more than two file writes (one image in
two formats). -/
theorem C6_theorem (w : World) :
    (∀ u p t, (u, p, t) ∈ postsOf (generate_dashboard_mockup w).2 →
      p.samples = 1) ∧
    (∀ u p t, (u, p, t) ∈ postsOf (generate_hero_image w).2 →
      p.samples = 1) ∧
    (∀ u p t, (u, p, t) ∈ postsOf (generate_investment_visual w).2 →
      p.samples = 1) ∧
    (∀ u p t, (u, p, t) ∈ postsOf (generate_business_icons w).2 →
      p.samples = 1) ∧
    generate_dashboard_mockup (truncWorld w) =
      generate_dashboard_mockup w ∧
    generate_hero_image (truncWorld w) = generate_hero_image w ∧
    generate_investment_visual (truncWorld w) =
      generate_investment_visual w ∧
    generate_business_icons (truncWorld w) = generate_business_icons w ∧
    (writesOf (generate_dashboard_mockup w).2).length ≤ 2 ∧
    (writesOf (generate_hero_image w).2).length ≤ 2 ∧
    (writesOf (generate_investment_visual w).2).length ≤ 2 := by
  have hlen : ∀ c : SingleConfig, (writesOf (runSingle c w).2).length ≤ 2 := by
    intro c
    rcases runSingle_writes_cases c w with h | ⟨img, h⟩ | ⟨img, h⟩ <;>
      rw [h] <;> simp
  have hicons : ∀ u p t,
      (u, p, t) ∈ postsOf (generate_business_icons w).2 → p.samples = 1 := by
    intro u p t h
    rcases hk : w.apiKey with _ | k
    · rw [gbi_apiKey_none w hk] at h
      simp [postsOf] at h
    · rcases hm : w.makedirs iconsDir with e | ⟨⟩
      · rw [gbi_mkdirFail w k e hk hm] at h
        simp [postsOf] at h
      · rw [gbi_posts w k hk hm] at h
        simp [List.mem_map] at h
        obtain ⟨icon, _, hu, hp, ht⟩ := h
        rw [← hp]
        rfl
  exact ⟨fun u p t h => (runSingle_samples dashboardConfig w u p t h).1,
    fun u p t h => (runSingle_samples heroConfig w u p t h).1,
    fun u p t h => (runSingle_samples investmentConfig w u p t h).1,
    hicons,
    runSingle_trunc dashboardConfig w, runSingle_trunc heroConfig w,
    runSingle_trunc investmentConfig w, gbi_trunc w,
    hlen dashboardConfig, hlen heroConfig, hlen investmentConfig⟩

/-- Witness for C6 at `goodWorld`: the payload of the one POST the
dashboard runner issues has `samples = 1`. -/
theorem C6_witness : (mkRequestData dashboardConfig).samples = 1 := by
  have he : postsOf (generate_dashboard_mockup goodWorld).2 =
      [(stabilityUrl, mkRequestData dashboardConfig, 120)] := rfl
  have h : (stabilityUrl, mkRequestData dashboardConfig, 120) ∈
      postsOf (generate_dashboard_mockup goodWorld).2 := by
    rw [he]
    exact List.mem_singleton.mpr rfl
  exact (C6_theorem goodWorld).1 stabilityUrl
    (mkRequestData dashboardConfig) 120 h

/-- C7: when the credential is present, each single-image runner issues
exactly one POST, to the fixed Stability endpoint with timeout 120, on
every execution path (in particular, no retry on any reply); the icons
runner issues exactly six POSTs, one per icon request, each to the fixed
endpoint with timeout 120. -/
theorem C7_theorem (w : World) (k : String) (hk : w.apiKey = some k) :
    postsOf (generate_dashboard_mockup w).2 =
      [(stabilityUrl, mkRequestData dashboardConfig, 120)] ∧
    postsOf (generate_hero_image w).2 =
      [(stabilityUrl, mkRequestData heroConfig, 120)] ∧
    postsOf (generate_investment_visual w).2 =
      [(stabilityUrl, mkRequestData investmentConfig, 120)] ∧
    (w.makedirs iconsDir = Except.ok () →
      postsOf (generate_business_icons w).2 =
        icons.map (fun icon => (stabilityUrl, iconRequestData icon, 120)) ∧
      (postsOf (generate_business_icons w).2).length = 6) := by
  refine ⟨runSingle_posts dashboardConfig w k hk,
    runSingle_posts heroConfig w k hk,
    runSingle_posts investmentConfig w k hk, ?_⟩
  intro hm
  refine ⟨gbi_posts w k hk hm, ?_⟩
  rw [gbi_posts w k hk hm]
  rfl

/-- Witness for C7 at `allFailWorld`: even though every reply is a 500,
each runner still issues its exact number of POSTs — no retry happens. -/
theorem C7_witness :
    postsOf (generate_dashboard_mockup allFailWorld).2 =
      [(stabilityUrl, mkRequestData dashboardConfig, 120)] ∧
    (postsOf (generate_business_icons allFailWorld).2).length = 6 :=
  ⟨(C7_theorem allFailWorld "sk-test" rfl).1,
   ((C7_theorem allFailWorld "sk-test" rfl).2.2.2 rfl).2⟩

/-- C8: the output paths of every runner are fixed constants, independent
of prior filesystem state, so running a runner twice against the same
world overwrites rather than accumulates: the filesystem after the second
run equals the filesystem after the first.  Every write of a single-image
runner targets its two fixed paths; every write of the icons runner
targets the PNG or WebP path of one of the six icons. -/
theorem C8_theorem (w : World) (fs : FS) :
    runFS generate_dashboard_mockup w
        (runFS generate_dashboard_mockup w fs) =
      runFS generate_dashboard_mockup w fs ∧
    runFS generate_hero_image w (runFS generate_hero_image w fs) =
      runFS generate_hero_image w fs ∧
    runFS generate_investment_visual w
        (runFS generate_investment_visual w fs) =
      runFS generate_investment_visual w fs ∧
    runFS generate_business_icons w
        (runFS generate_business_icons w fs) =
      runFS generate_business_icons w fs ∧
    (∀ p c, (p, c) ∈ writesOf (generate_dashboard_mockup w).2 →
      p = dashboardConfig.pngPath ∨ p = dashboardConfig.webpPath) ∧
    (∀ p c, (p, c) ∈ writesOf (generate_hero_image w).2 →
      p = heroConfig.pngPath ∨ p = heroConfig.webpPath) ∧
    (∀ p c, (p, c) ∈ writesOf (generate_investment_visual w).2 →
      p = investmentConfig.pngPath ∨ p = investmentConfig.webpPath) ∧
    (∀ p c, (p, c) ∈ writesOf (generate_business_icons w).2 →
      ∃ icon, icon ∈ icons ∧
        (p = iconPngPath icon.name ∨ p = iconWebpPath icon.name)) := by
  have hsingle : ∀ c : SingleConfig, ∀ p fc,
      (p, fc) ∈ writesOf (runSingle c w).2 →
      p = c.pngPath ∨ p = c.webpPath := by
    intro c p fc h
    rcases runSingle_writes_cases c w with h0 | ⟨img, h1⟩ | ⟨img, h2⟩
    · rw [h0] at h; simp at h
    · rw [h1] at h; simp at h; exact Or.inl h.1
    · rw [h2] at h
      rcases List.mem_cons.mp h with h | h
      · exact Or.inl (congrArg Prod.fst h)
      · rcases List.mem_cons.mp h with h | h
        · exact Or.inr (congrArg Prod.fst h)
        · simp at h
  have hicons : ∀ p fc, (p, fc) ∈ writesOf (generate_business_icons w).2 →
      ∃ icon, icon ∈ icons ∧
        (p = iconPngPath icon.name ∨ p = iconWebpPath icon.name) := by
    intro p fc h
    rcases hk : w.apiKey with _ | k
    · rw [gbi_apiKey_none w hk] at h
      simp at h
    · rcases hm : w.makedirs iconsDir with e | ⟨⟩
      · rw [gbi_mkdirFail w k e hk hm] at h
        simp at h
      · rw [gbi_writes w k hk hm] at h
        obtain ⟨idx, icon, hmem, hw⟩ :=
          iconsLoopAux_writes_mem w icons 0 p fc h
        refine ⟨icon, hmem, ?_⟩
        rcases iconStep_writes_cases w idx icon with h0 | ⟨img, h1⟩ | ⟨img, h2⟩
        · rw [h0] at hw; simp at hw
        · rw [h1] at hw; simp at hw; exact Or.inl hw.1
        · rw [h2] at hw
          rcases List.mem_cons.mp hw with hw | hw
          · exact Or.inl (congrArg Prod.fst hw)
          · rcases List.mem_cons.mp hw with hw | hw
            · exact Or.inr (congrArg Prod.fst hw)
            · simp at hw
  exact ⟨applyWrites_idem _ fs, applyWrites_idem _ fs,
    applyWrites_idem _ fs, applyWrites_idem _ fs,
    hsingle dashboardConfig, hsingle heroConfig,
    hsingle investmentConfig, hicons⟩

/-- Witness for C8 at `goodWorld` over the empty filesystem: re-running
the dashboard runner leaves the filesystem unchanged, and its first write
goes to the fixed PNG path. -/
theorem C8_witness :
    runFS generate_dashboard_mockup goodWorld
        (runFS generate_dashboard_mockup goodWorld emptyFS) =
      runFS generate_dashboard_mockup goodWorld emptyFS ∧
    (dashboardConfig.pngPath = dashboardConfig.pngPath ∨
     dashboardConfig.pngPath = dashboardConfig.webpPath) := by
  have he : writesOf (generate_dashboard_mockup goodWorld).2 =
      [(dashboardConfig.pngPath,
        { format := "PNG", quality := 95, image := testImage }),
       (dashboardConfig.webpPath,
        { format := "WebP", quality := 85, image := testImage })] := rfl
  refine ⟨(C8_theorem goodWorld emptyFS).1, ?_⟩
  apply (C8_theorem goodWorld emptyFS).2.2.2.2.1 dashboardConfig.pngPath
    { format := "PNG", quality := 95, image := testImage }
  rw [he]
  exact List.mem_cons_self _ _

/-- C10: in `generate_business_icons`, when the credential is present and
directory creation succeeds, the icons directory is created first — before
any HTTP POST (it is the head of the effect trace) — on every invocation,
including those in which all six requests fail; and when every request
fails, the directory creation is the only filesystem effect of the
invocation. -/
theorem C10_theorem (w : World) (k : String) (hk : w.apiKey = some k)
    (hm : w.makedirs iconsDir = Except.ok ()) :
    (generate_business_icons w).2.head? =
      some (Effect.makedirs iconsDir) ∧
    ((∀ i, i < 6 → replyFails (w.post i) = true) →
      fsEffectsOf (generate_business_icons w).2 =
        [Effect.makedirs iconsDir]) := by
  constructor
  · rw [gbi_ok w k hk hm]
    rfl
  · intro hall
    have h6 : icons.length = 6 := rfl
    have hf := iconsLoopAux_allFail_fs w icons 0
      (fun j _ hj => hall j (by omega))
    rw [gbi_ok w k hk hm]
    simp [hf]

/-- Witness for C10 at `allFailWorld`: every request receives status 500,
the trace starts with the directory creation, and it is the only
filesystem effect. -/
theorem C10_witness :
    (generate_business_icons allFailWorld).2.head? =
      some (Effect.makedirs iconsDir) ∧
    fsEffectsOf (generate_business_icons allFailWorld).2 =
      [Effect.makedirs iconsDir] :=
  ⟨(C10_theorem allFailWorld "sk-test" rfl rfl).1,
   (C10_theorem allFailWorld "sk-test" rfl rfl).2 (fun _ _ => rfl)⟩
